import Mathlib

/-!
# GC9A01 round-display usermod

A shallow embedding of `usermods/usermod_gc9a01_display/usermod_gc9a01_display.h`.

The class `UsermodGC9A01Display` becomes a record holding its data members together
with the effects it has had on the outside world (writes to the backlight pin, calls
into the TFT library, lines printed on the serial port).  Every member function becomes
a pure function from the record (and the host state it reads) to the new record.

Machine integers are natural numbers; the places where the C++ code truncates
(`uint16_t displayTimeout`, `unsigned long` clock arithmetic) reduce explicitly.
-/

namespace GC9A01

/-! ## Data model -/

/-- Contents of an Arduino `String`: a sequence of one-byte characters. -/
abbrev Text := List Char

/-- The four TFT_eSPI colour constants the module uses. -/
inductive Color where
  | black
  | white
  | green
  | red
  deriving DecidableEq, Repr

/-- One call into the TFT_eSPI drawing library, with its arguments. -/
inductive TftOp where
  | init
  | setRotation (r : Nat)
  | fillScreen (c : Color)
  | setTextColor (fg bg : Color)
  | setTextSize (n : Nat)
  | drawString (s : Text) (x y font : Nat)
  | fillRect (x y w h color565 : Nat)
  deriving DecidableEq, Repr

/-- One value written to the backlight pin `GC9A01_BL_PIN`:
`digitalWrite(pin, HIGH/LOW)` or `analogWrite(pin, duty)`. -/
inductive PinWrite where
  | digital (high : Bool)
  | analog (duty : Nat)
  deriving DecidableEq, Repr

/-- The object `UsermodGC9A01Display`: its data members (lines 30-42 of the header)
followed by the record of what it has done to the hardware, oldest effect first. -/
structure UsermodGC9A01Display where
  displayEnabled : Bool
  needsRedraw : Bool
  displayTurnedOff : Bool
  lastUpdate : Nat
  lastRedraw : Nat
  brightness : Nat
  displayTimeout : Nat
  currentEffectName : Text
  currentBrightness : Nat
  currentPowerState : Bool
  encoderEnabled : Bool
  blPinOutput : Bool
  blWrites : List PinWrite
  tft : List TftOp
  serial : List Text
  deriving DecidableEq, Repr

/-- The default member initialisers: the object before `setup` has run. -/
def initial : UsermodGC9A01Display where
  displayEnabled := true
  needsRedraw := true
  displayTurnedOff := false
  lastUpdate := 0
  lastRedraw := 0
  brightness := 255
  displayTimeout := 60000
  currentEffectName := []
  currentBrightness := 0
  currentPowerState := false
  encoderEnabled := false
  blPinOutput := false
  blWrites := []
  tft := []
  serial := []

/-- Host state the module reads: the millisecond clock `millis()`, the global
brightness `bri`, `currentPlaylist`, the name `JSON_mode_names[strip.getMode()]`,
`strip.getPixelColor(0)`, whether `WiFi.status() == WL_CONNECTED`, `toki.isValid()`,
`toki.getTimeString()`, and the library function `tft.color565`. -/
structure Host where
  millis : Nat
  bri : Nat
  currentPlaylist : Int
  modeName : Text
  pixelColor0 : Nat
  wifiConnected : Bool
  tokiValid : Bool
  timeString : Text
  color565 : Nat → Nat → Nat → Nat

/-- Subtraction of two `unsigned long` values (32 bits on the ESP targets). -/
def sub32 (a b : Nat) : Nat := (a + (4294967296 - b % 4294967296)) % 4294967296

/-- Arduino `String::substring(left, right)`: the characters at positions
`left .. right - 1`, the bounds swapped when out of order and `right` clipped to the
length; empty when `left` is past the end. -/
def substring (s : Text) (left right : Nat) : Text :=
  let lo := if left > right then right else left
  let hi := if left > right then left else right
  if lo ≥ s.length then [] else (s.take (min hi s.length)).drop lo

/-! ## Drawing -/

/-- Embedding of `drawStatusBar` (lines 136-151). -/
def drawStatusBar (s : UsermodGC9A01Display) (h : Host) : UsermodGC9A01Display :=
  let s1 : UsermodGC9A01Display :=
    if h.wifiConnected = true then
      { s with tft := s.tft ++ [.setTextColor .green .black, .drawString "WiFi".toList 10 10 1] }
    else
      { s with tft := s.tft ++ [.setTextColor .red .black, .drawString "WiFi".toList 10 10 1] }
  if h.tokiValid = true then
    { s1 with tft := s1.tft ++ [.setTextColor .white .black, .drawString h.timeString 150 10 1] }
  else s1

/-- The label computed at lines 119-122 of `drawMainScreen`. -/
def displayEffect (currentEffectName : Text) : Text :=
  if currentEffectName.length > 15 then
    substring currentEffectName 0 12 ++ "...".toList
  else currentEffectName

/-- Embedding of `drawMainScreen` (lines 97-134). -/
def drawMainScreen (s : UsermodGC9A01Display) (h : Host) : UsermodGC9A01Display :=
  let s1 : UsermodGC9A01Display := { s with tft := s.tft ++ [.fillScreen .black] }
  let s2 := drawStatusBar s1 h
  let s3 : UsermodGC9A01Display :=
    if s2.currentPowerState = true then
      { s2 with tft := s2.tft ++ [.setTextColor .green .black, .drawString "ON".toList 10 40 2] }
    else
      { s2 with tft := s2.tft ++ [.setTextColor .red .black, .drawString "OFF".toList 10 40 2] }
  let s4 : UsermodGC9A01Display :=
    { s3 with tft := s3.tft ++
        [.setTextColor .white .black,
         .drawString "Brightness:".toList 10 70 2,
         .drawString (Nat.repr s3.currentBrightness).toList 10 90 2,
         .drawString "Effect:".toList 10 120 2,
         .drawString (displayEffect s3.currentEffectName) 10 140 2] }
  if s4.currentPowerState = true then
    let color := h.pixelColor0
    let r := (color / 65536) % 256
    let g := (color / 256) % 256
    let b := color % 256
    let color565 := h.color565 r g b % 65536
    { s4 with tft := s4.tft ++ [.fillRect 10 170 60 30 color565] }
  else s4

/-- Embedding of `updateDisplay` (lines 64-95): compare the host state with the cached
snapshot, refresh the snapshot, and repaint when anything differs. -/
def updateDisplay (s : UsermodGC9A01Display) (h : Host) : UsermodGC9A01Display :=
  if s.displayTurnedOff = true then s else
  let stateChanged0 := false
  let power : Bool := decide (h.bri > 0)
  let (s1, stateChanged1) : UsermodGC9A01Display × Bool :=
    if s.currentPowerState ≠ power then
      ({ s with currentPowerState := power }, true)
    else (s, stateChanged0)
  let (s2, stateChanged2) : UsermodGC9A01Display × Bool :=
    if s1.currentBrightness ≠ h.bri then
      ({ s1 with currentBrightness := h.bri }, true)
    else (s1, stateChanged1)
  let effectName : Text :=
    if h.currentPlaylist ≥ 0 then "Playlist".toList else h.modeName
  let (s3, stateChanged3) : UsermodGC9A01Display × Bool :=
    if s2.currentEffectName ≠ effectName then
      ({ s2 with currentEffectName := effectName }, true)
    else (s2, stateChanged2)
  if stateChanged3 = true then drawMainScreen s3 h else s3

/-! ## Backlight control -/

/-- Embedding of `initDisplay` (lines 44-62). -/
def initDisplay (s : UsermodGC9A01Display) : UsermodGC9A01Display :=
  if s.displayEnabled = false then s else
  { s with
    blPinOutput := true
    blWrites := s.blWrites ++ [.digital true]
    tft := s.tft ++
      [.init, .setRotation 0, .fillScreen .black,
       .setTextColor .white .black, .setTextSize 2,
       .drawString "WLED".toList 120 100 2,
       .setTextSize 1,
       .drawString "GC9A01 Display".toList 120 130 2]
    serial := s.serial ++ ["GC9A01: Display initialized".toList] }

/-- Embedding of `setBrightness` (lines 153-156). -/
def setBrightness (s : UsermodGC9A01Display) (bri : Nat) : UsermodGC9A01Display :=
  let s1 : UsermodGC9A01Display := { s with brightness := bri % 256 }
  { s1 with blWrites := s1.blWrites ++ [.analog s1.brightness] }

/-- Embedding of `sleepDisplay` (lines 158-162). -/
def sleepDisplay (s : UsermodGC9A01Display) : UsermodGC9A01Display :=
  { s with
    blWrites := s.blWrites ++ [.digital false]
    displayTurnedOff := true
    serial := s.serial ++ ["GC9A01: Display sleeping".toList] }

/-- Embedding of `wakeDisplay` (lines 164-170). -/
def wakeDisplay (s : UsermodGC9A01Display) (h : Host) : UsermodGC9A01Display :=
  { s with
    blWrites := s.blWrites ++ [.digital true]
    displayTurnedOff := false
    needsRedraw := true
    lastUpdate := h.millis
    serial := s.serial ++ ["GC9A01: Display waking".toList] }

/-! ## Lifecycle callbacks and hooks -/

/-- Embedding of `setup` (lines 173-182).  The flag says whether the build defines
`USERMOD_ROTARY_ENCODER_UI_ALT`. -/
def setup (rotaryEncoderAlt : Bool) (s : UsermodGC9A01Display) : UsermodGC9A01Display :=
  let s1 := initDisplay s
  let s2 : UsermodGC9A01Display :=
    if rotaryEncoderAlt = true then
      { s1 with
        encoderEnabled := true
        serial := s1.serial ++ ["GC9A01: Rotary encoder integration enabled".toList] }
    else s1
  { s2 with needsRedraw := true }

/-- Embedding of `loop` (lines 184-203). -/
def loop (s : UsermodGC9A01Display) (h : Host) : UsermodGC9A01Display :=
  if s.displayEnabled = false then s else
  let now := h.millis
  if s.displayTimeout > 0 ∧ sub32 now s.lastUpdate > s.displayTimeout then
    if s.displayTurnedOff = false then sleepDisplay s else s
  else if s.needsRedraw = true ∨ sub32 now s.lastRedraw > 100 then
    let s1 := updateDisplay s h
    { s1 with lastRedraw := now, needsRedraw := false }
  else s

/-- Embedding of `onUpdateBegin` (lines 205-212); the argument `init` is unused. -/
def onUpdateBegin (s : UsermodGC9A01Display) (h : Host) (_init : Bool) :
    UsermodGC9A01Display :=
  if s.displayTurnedOff = true then wakeDisplay s h
  else { s with lastUpdate := h.millis, needsRedraw := true }

/-- Embedding of `connected` (lines 214-216). -/
def connected (s : UsermodGC9A01Display) : UsermodGC9A01Display :=
  { s with needsRedraw := true }

/-- Embedding of `displayNextItem` (lines 260-267). -/
def displayNextItem (s : UsermodGC9A01Display) (h : Host) : UsermodGC9A01Display :=
  if s.displayTurnedOff = true then wakeDisplay s h
  else { s with lastUpdate := h.millis, needsRedraw := true }

/-- Embedding of `displayPreviousItem` (lines 269-276). -/
def displayPreviousItem (s : UsermodGC9A01Display) (h : Host) : UsermodGC9A01Display :=
  if s.displayTurnedOff = true then wakeDisplay s h
  else { s with lastUpdate := h.millis, needsRedraw := true }

/-- Embedding of `displaySelectItem` (lines 278-285). -/
def displaySelectItem (s : UsermodGC9A01Display) (h : Host) : UsermodGC9A01Display :=
  if s.displayTurnedOff = true then wakeDisplay s h
  else { s with lastUpdate := h.millis, needsRedraw := true }

/-- Embedding of `forceRedraw` (line 287). -/
def forceRedraw (s : UsermodGC9A01Display) : UsermodGC9A01Display :=
  { s with needsRedraw := true }

/-! ## Configuration persistence -/

/-- Modelled from the spec: the JSON values a configuration field can hold.  The JSON
library is the host's; the spec names three typed fields (bool, unsigned integer, byte)
and values that fail to parse into them. -/
inductive JsonScalar where
  | null
  | bool (b : Bool)
  | num (n : Int)
  | str (s : Text)
  deriving DecidableEq, Repr

/-- Modelled from the spec: a JSON object holding scalar fields, as a key/value list.
The first entry with a given key is the one a read sees. -/
abbrev JsonObject := List (String × JsonScalar)

/-- Modelled from the spec: a member of the configuration root, either a scalar or a
nested object (a section). -/
inductive JsonVariant where
  | scalar (v : JsonScalar)
  | object (o : JsonObject)
  deriving DecidableEq, Repr

/-- Modelled from the spec: the configuration object handed to `addToConfig` and
`readFromConfig`. -/
abbrev JsonRoot := List (String × JsonVariant)

/-- Modelled from the spec: `obj[key] = value` of the host JSON library, which
overwrites the member with that key when there is one and appends it otherwise. -/
def setMember {β : Type} (key : String) (value : β) :
    List (String × β) → List (String × β)
  | [] => [(key, value)]
  | (k, v) :: rest =>
    if k == key then (key, value) :: rest else (k, v) :: setMember key value rest

/-- Modelled from the spec: `JsonObject top = root[key]` of the host JSON library; the
result is null (`none`) when the key is absent or its value is not an object. -/
def getSection (root : JsonRoot) (key : String) : Option JsonObject :=
  match root.lookup key with
  | some (.object o) => some o
  | _ => none

/-- Modelled from the spec: the host helper `getJsonValue(element, destination)` at
destination type `bool`.  It reports whether the element parses as a bool; the
destination is overwritten when it does and kept when it does not. -/
def getJsonValueBool (element : Option JsonScalar) (destination : Bool) : Bool × Bool :=
  match element with
  | some (.bool b) => (true, b)
  | _ => (false, destination)

/-- Modelled from the spec: the host helper `getJsonValue(element, destination)` at an
unsigned destination type of `bits` bits (`uint16_t`, `uint8_t`).  It reports whether
the element parses as such a number; the destination is overwritten when it does and
kept when it does not. -/
def getJsonValueUInt (bits : Nat) (element : Option JsonScalar) (destination : Nat) :
    Bool × Nat :=
  match element with
  | some (.num n) =>
    if 0 ≤ n ∧ n < 2 ^ bits then (true, n.toNat) else (false, destination)
  | _ => (false, destination)

/-- Embedding of `addToConfig` (lines 232-237). -/
def addToConfig (s : UsermodGC9A01Display) (root : JsonRoot) : JsonRoot :=
  let top : JsonObject := []
  let top := setMember "enabled" (.bool s.displayEnabled) top
  let top := setMember "timeout" (.num (s.displayTimeout / 1000 : Nat)) top
  let top := setMember "brightness" (.num (s.brightness : Nat)) top
  setMember "GC9A01" (.object top) root

/-- Embedding of `readFromConfig` (lines 239-257): the returned flag and the object
after the call. -/
def readFromConfig (s : UsermodGC9A01Display) (root : JsonRoot) :
    Bool × UsermodGC9A01Display :=
  match getSection root "GC9A01" with
  | none => (false, s)
  | some top =>
    let configComplete := true
    let (ok1, enabled) := getJsonValueBool (top.lookup "enabled") s.displayEnabled
    let s1 : UsermodGC9A01Display := { s with displayEnabled := enabled }
    let configComplete := configComplete && ok1
    let timeoutSeconds := (s1.displayTimeout / 1000) % 65536
    let (ok2, timeoutSeconds) := getJsonValueUInt 16 (top.lookup "timeout") timeoutSeconds
    let configComplete := configComplete && ok2
    let s2 : UsermodGC9A01Display :=
      { s1 with displayTimeout := (timeoutSeconds * 1000) % 65536 }
    let (ok3, bright) := getJsonValueUInt 8 (top.lookup "brightness") s2.brightness
    let s3 : UsermodGC9A01Display := { s2 with brightness := bright }
    let configComplete := configComplete && ok3
    let s4 := if configComplete = true then setBrightness s3 s3.brightness else s3
    (configComplete, s4)

/-- A complete `"GC9A01"` section with the given field values. -/
def section3 (enabled : Bool) (timeoutSeconds brightness : Nat) : JsonObject :=
  [("enabled", .bool enabled), ("timeout", .num timeoutSeconds),
   ("brightness", .num brightness)]

/-- Run `loop` once for each host reading in turn. -/
def runLoops (s : UsermodGC9A01Display) : List Host → UsermodGC9A01Display
  | [] => s
  | h :: rest => runLoops (loop s h) rest

/-- A host reading at clock value `now`: LEDs off, no playlist, no network, no time. -/
def hostAt (now : Nat) : Host where
  millis := now
  bri := 0
  currentPlaylist := -1
  modeName := "Solid".toList
  pixelColor0 := 0
  wifiConnected := false
  tokiValid := false
  timeString := []
  color565 := fun r g b => (r / 8) * 2048 + (g / 4) * 32 + b / 8

/-- The object after `setup` on a default-constructed module. -/
def afterSetup : UsermodGC9A01Display := setup false initial

/-- The value last written to the backlight pin, if any. -/
def backlight (s : UsermodGC9A01Display) : Option PinWrite := s.blWrites.getLast?

/-- The written value switches the backlight off: digital LOW or PWM duty 0. -/
def PinWrite.isOff : PinWrite → Bool
  | .digital high => !high
  | .analog duty => duty == 0

/-- Members other than the three settings and the backlight writes are the same in
both objects. -/
def SameOutsideSettings (s r : UsermodGC9A01Display) : Prop :=
  r = { s with
    displayEnabled := r.displayEnabled
    displayTimeout := r.displayTimeout
    brightness := r.brightness
    blWrites := r.blWrites }

/-- What an activity hook leaves behind: awake, dirty, activity timestamp at the clock
value, and the backlight written HIGH once if and only if the module was asleep. -/
def Woken (s r : UsermodGC9A01Display) (h : Host) : Prop :=
  r.displayTurnedOff = false ∧ r.needsRedraw = true ∧ r.lastUpdate = h.millis ∧
  r.blWrites = (if s.displayTurnedOff = true then s.blWrites ++ [.digital true]
                else s.blWrites) ∧
  (s.displayTurnedOff = true → backlight r = some (.digital true))

/-- The texts of the `drawString` calls made at the effect-name position (10, 140). -/
def effectLabelsDrawn (ops : List TftOp) : List Text :=
  ops.filterMap fun op =>
    match op with
    | .drawString t 10 140 _ => some t
    | _ => none

/-! ## Configuration: lemmas and claims C1-C4 -/

theorem lookup_setMember {β : Type} (key : String) (value : β) (l : List (String × β)) :
    (setMember key value l).lookup key = some value := by
  induction l with
  | nil => simp [setMember, List.lookup]
  | cons p rest ih =>
    obtain ⟨k, v⟩ := p
    by_cases hk : k = key
    · subst hk
      simp [setMember, List.lookup]
    · have hk2 : (key == k) = false := by
        simp only [beq_eq_false_iff_ne, ne_eq]
        exact fun e => hk e.symm
      simp [setMember, hk, List.lookup, hk2, ih]

theorem getSection_addToConfig (s : UsermodGC9A01Display) (root : JsonRoot) :
    getSection (addToConfig s root) "GC9A01" =
      some (section3 s.displayEnabled (s.displayTimeout / 1000) s.brightness) := by
  simp only [getSection, addToConfig, lookup_setMember]
  simp [setMember, section3]

theorem section3_lookup (e : Bool) (t b : Nat) :
    (section3 e t b).lookup "enabled" = some (.bool e) ∧
    (section3 e t b).lookup "timeout" = some (.num t) ∧
    (section3 e t b).lookup "brightness" = some (.num b) := by
  refine ⟨?_, ?_, ?_⟩ <;> simp [section3, List.lookup] 

theorem readFromConfig_complete (t : UsermodGC9A01Display) (root : JsonRoot)
    (top : JsonObject) (e : Bool) (secs b : Nat) (hs : secs < 65536) (hb : b < 256)
    (hroot : getSection root "GC9A01" = some top)
    (h1 : top.lookup "enabled" = some (.bool e))
    (h2 : top.lookup "timeout" = some (.num secs))
    (h3 : top.lookup "brightness" = some (.num b)) :
    readFromConfig t root =
      (true, { t with
        displayEnabled := e
        displayTimeout := (secs * 1000) % 65536
        brightness := b
        blWrites := t.blWrites ++ [.analog b] }) := by
  have hs2 : ((secs : Int) < 2 ^ 16) := by
    have : (2 : Int) ^ 16 = 65536 := by norm_num
    omega
  have hb2 : ((b : Int) < 2 ^ 8) := by
    have : (2 : Int) ^ 8 = 256 := by norm_num
    omega
  simp [readFromConfig, hroot, h1, h2, h3, getJsonValueBool, getJsonValueUInt, hs2, hb2, hs, hb,
    setBrightness, Nat.mod_eq_of_lt hb]

theorem readFromConfig_frame (s : UsermodGC9A01Display) (root : JsonRoot) :
    SameOutsideSettings s (readFromConfig s root).2 := by
  unfold SameOutsideSettings readFromConfig
  cases hsec : getSection root "GC9A01" with
  | none => rfl
  | some top =>
    simp only [setBrightness]
    split <;> rfl

theorem getJsonValueUInt_fail (bits : Nat) (element : Option JsonScalar) (d0 d : Nat)
    (hfail : (getJsonValueUInt bits element d0).1 = false) :
    getJsonValueUInt bits element d = (false, d) := by
  unfold getJsonValueUInt at hfail ⊢
  split
  · rename_i n
    by_cases hn : 0 ≤ n ∧ n < 2 ^ bits
    · simp [hn] at hfail
    · simp [hn]
  · rfl

/-- C1 (evaluated at the failing input): with all three keys present and a timeout of
66 seconds, `readFromConfig` returns true but leaves `displayTimeout` at 464, not at
66 * 1000: the product is truncated to the 16 bits of the member. -/
theorem readFromConfig_timeout_66_wraps :
    (readFromConfig initial [("GC9A01", .object (section3 true 66 255))]).1 = true ∧
    (readFromConfig initial [("GC9A01", .object (section3 true 66 255))]).2.displayTimeout
      = 464 ∧
    (readFromConfig initial [("GC9A01", .object (section3 true 30 255))]).2.displayTimeout
      = 30000 := by
  decide

/-- C2 (as stated, refuted): a module whose timeout is 1500 ms writes `timeout: 1`, and
reading that back leaves `displayTimeout` at 1000, not 1500.  The same happens from a
state the module reaches by itself: reading `timeout: 66` leaves 464 ms, which is
written back as `timeout: 0` and read back as 0 ms. -/
theorem round_trip_loses_milliseconds :
    ((readFromConfig initial
        (addToConfig { initial with displayTimeout := 1500 } [])).1 = true ∧
     (readFromConfig initial
        (addToConfig { initial with displayTimeout := 1500 } [])).2.displayTimeout = 1000) ∧
    ((readFromConfig initial
        [("GC9A01", .object (section3 true 66 255))]).2.displayTimeout = 464 ∧
     (readFromConfig initial
        (addToConfig (readFromConfig initial
          [("GC9A01", .object (section3 true 66 255))]).2 [])).2.displayTimeout = 0) := by
  decide

/-- C2 (amended): for a module `s` whose timeout and brightness fit their members, the
object written by `addToConfig s`, read by `readFromConfig` on a module `t` in any
state, gives true, changes of `t` only the three settings and the backlight, sets
`displayEnabled` and `brightness` to those of `s`, sets `displayTimeout` to that of
`s` rounded down to whole seconds (so to exactly that of `s` when it is a multiple of
1000), and writes the brightness to the backlight PWM. -/
theorem config_round_trip (s t : UsermodGC9A01Display) (root : JsonRoot)
    (hT : s.displayTimeout < 65536) (hb : s.brightness < 256) :
    readFromConfig t (addToConfig s root) =
      (true, { t with
        displayEnabled := s.displayEnabled
        displayTimeout := s.displayTimeout / 1000 * 1000
        brightness := s.brightness
        blWrites := t.blWrites ++ [.analog s.brightness] }) ∧
    (s.displayTimeout % 1000 = 0 →
      (readFromConfig t (addToConfig s root)).2.displayTimeout = s.displayTimeout) := by
  obtain ⟨h1, h2, h3⟩ := section3_lookup s.displayEnabled (s.displayTimeout / 1000) s.brightness
  have hsec : s.displayTimeout / 1000 < 65536 := by omega
  have hmod : s.displayTimeout / 1000 * 1000 % 65536 = s.displayTimeout / 1000 * 1000 := by
    omega
  have key := readFromConfig_complete t (addToConfig s root) _ s.displayEnabled
    (s.displayTimeout / 1000) s.brightness hsec hb (getSection_addToConfig s root) h1 h2 h3
  rw [hmod] at key
  refine ⟨key, fun hm => ?_⟩
  rw [key]
  show s.displayTimeout / 1000 * 1000 = s.displayTimeout
  omega

/-- Witness for C2: enabled = false, timeout = 30000 ms, brightness = 128. -/
theorem config_round_trip_witness :
    readFromConfig initial
        (addToConfig { initial with displayEnabled := false, displayTimeout := 30000,
                                    brightness := 128 } []) =
      (true, { initial with displayEnabled := false, displayTimeout := 30000,
                            brightness := 128, blWrites := [.analog 128] }) :=
  (config_round_trip { initial with displayEnabled := false, displayTimeout := 30000,
                                    brightness := 128 } initial [] (by decide) (by decide)).1

/-- C3: when the configuration object has no `"GC9A01"` member, `readFromConfig`
returns false and the object, hardware record included, is exactly as before. -/
theorem readFromConfig_missing_section (s : UsermodGC9A01Display) (root : JsonRoot)
    (hmiss : root.lookup "GC9A01" = none) :
    readFromConfig s root = (false, s) := by
  simp [readFromConfig, getSection, hmiss]

/-- Witness for C3: the empty configuration object, read by the module after setup. -/
theorem readFromConfig_missing_section_witness :
    readFromConfig afterSetup [] = (false, afterSetup) :=
  readFromConfig_missing_section afterSetup [] rfl

/-- C4 (as stated, refuted): a section with `enabled: false` and `brightness: 10` but no
`timeout` makes `readFromConfig` return false, yet the enabled flag and the brightness
setting have been overwritten. -/
theorem failed_read_overwrites_settings :
    (readFromConfig initial
        [("GC9A01", .object [("enabled", .bool false), ("brightness", .num 10)])]).1
      = false ∧
    (readFromConfig initial
        [("GC9A01", .object [("enabled", .bool false), ("brightness", .num 10)])]).2.displayEnabled
      ≠ initial.displayEnabled ∧
    (readFromConfig initial
        [("GC9A01", .object [("enabled", .bool false), ("brightness", .num 10)])]).2.brightness
      ≠ initial.brightness := by
  decide

/-- C4 (amended): when `readFromConfig` returns false, nothing is written to the
backlight and no member other than the three settings changes; with the section absent
nothing changes at all; with the section present, `displayEnabled` and `brightness`
each hold what `getJsonValue` left in them for their own key (the old value when the
key is missing or unparsable, the parsed value otherwise), and when the `timeout` key
is missing or unparsable `displayTimeout` is the old value rounded down to whole
seconds. -/
theorem readFromConfig_failure (s : UsermodGC9A01Display) (root : JsonRoot)
    (hT : s.displayTimeout < 65536) (hfail : (readFromConfig s root).1 = false) :
    (readFromConfig s root).2.blWrites = s.blWrites ∧
    SameOutsideSettings s (readFromConfig s root).2 ∧
    (getSection root "GC9A01" = none → (readFromConfig s root).2 = s) ∧
    (∀ top, getSection root "GC9A01" = some top →
      (readFromConfig s root).2.displayEnabled
        = (getJsonValueBool (top.lookup "enabled") s.displayEnabled).2 ∧
      (readFromConfig s root).2.brightness
        = (getJsonValueUInt 8 (top.lookup "brightness") s.brightness).2 ∧
      ((getJsonValueUInt 16 (top.lookup "timeout") 0).1 = false →
        (readFromConfig s root).2.displayTimeout = s.displayTimeout / 1000 * 1000)) := by
  refine ⟨?_, readFromConfig_frame s root, ?_, ?_⟩
  · cases hsec : getSection root "GC9A01" with
    | none => simp [readFromConfig, hsec]
    | some top =>
      simp only [readFromConfig, hsec] at hfail ⊢
      simp only [hfail]
      rfl
  · intro hsec
    simp [readFromConfig, hsec]
  · intro top hsec
    simp only [readFromConfig, hsec] at hfail ⊢
    simp only [hfail]
    refine ⟨rfl, rfl, fun hto => ?_⟩
    rw [getJsonValueUInt_fail 16 _ 0 _ hto]
    show s.displayTimeout / 1000 % 65536 * 1000 % 65536 = s.displayTimeout / 1000 * 1000
    omega

/-- Witness for C4: the default module reading a section that lacks the `timeout` key. -/
theorem readFromConfig_failure_witness :
    (readFromConfig initial
        [("GC9A01", .object [("enabled", .bool false), ("brightness", .num 10)])]).2.blWrites
      = initial.blWrites :=
  (readFromConfig_failure initial
    [("GC9A01", .object [("enabled", .bool false), ("brightness", .num 10)])]
    (by decide) (by decide)).1

/-! ## The periodic tick: lemmas and claims C5-C7 -/

theorem sub32_eq_sub (a b : Nat) (hba : b ≤ a) (ha : a < 4294967296) : sub32 a b = a - b := by
  unfold sub32
  omega

theorem drawMainScreen_frame (s : UsermodGC9A01Display) (h : Host) :
    drawMainScreen s h = { s with tft := (drawMainScreen s h).tft } := by
  cases hw : h.wifiConnected <;> cases ht : h.tokiValid <;>
    cases hp : s.currentPowerState <;>
    simp [drawMainScreen, drawStatusBar, hw, ht, hp]

theorem updateDisplay_asleep (s : UsermodGC9A01Display) (h : Host)
    (hoff : s.displayTurnedOff = true) : updateDisplay s h = s := by
  simp [updateDisplay, hoff]

theorem updateDisplay_frame (s : UsermodGC9A01Display) (h : Host) :
    updateDisplay s h = { s with
      currentPowerState := (updateDisplay s h).currentPowerState
      currentBrightness := (updateDisplay s h).currentBrightness
      currentEffectName := (updateDisplay s h).currentEffectName
      tft := (updateDisplay s h).tft } := by
  rcases s with ⟨en, nr, off, lu, lr, br, tmo, cen, cb, cps, ee, bpo, bw, ops, ser⟩
  unfold updateDisplay
  cases off
  · by_cases h1 : cps = decide (h.bri > 0) <;>
    by_cases h2 : cb = h.bri <;>
    by_cases h3 : cen = (if h.currentPlaylist ≥ 0 then "Playlist".toList else h.modeName) <;>
    simp only [h1, h2, h3, ne_eq, not_true_eq_false, not_false_eq_true, if_true,
      if_false, ite_true, ite_false, reduceCtorEq] <;>
    first
    | rfl
    | (rw [drawMainScreen_frame])
  · rfl

theorem updateDisplay_awake (s : UsermodGC9A01Display) (h : Host)
    (hoff : s.displayTurnedOff = false) :
    (updateDisplay s h).currentPowerState = decide (h.bri > 0) ∧
    (updateDisplay s h).currentBrightness = h.bri ∧
    (updateDisplay s h).currentEffectName
      = (if h.currentPlaylist ≥ 0 then "Playlist".toList else h.modeName) := by
  rcases s with ⟨en, nr, off, lu, lr, br, tmo, cen, cb, cps, ee, bpo, bw, ops, ser⟩
  simp only at hoff
  subst hoff
  unfold updateDisplay
  by_cases h1 : cps = decide (h.bri > 0) <;>
    by_cases h2 : cb = h.bri <;>
    by_cases h3 : cen = (if h.currentPlaylist ≥ 0 then "Playlist".toList else h.modeName) <;>
    simp only [h1, h2, h3, ne_eq, not_true_eq_false, not_false_eq_true, if_true,
      if_false, ite_true, ite_false, reduceCtorEq] <;>
    first
    | exact ⟨trivial, trivial, trivial⟩
    | exact ⟨rfl, rfl, rfl⟩
    | (rw [drawMainScreen_frame]; exact ⟨rfl, rfl, rfl⟩)

theorem loop_asleep (s : UsermodGC9A01Display) (h : Host)
    (hoff : s.displayTurnedOff = true) :
    (loop s h).displayTurnedOff = true ∧ (loop s h).blWrites = s.blWrites ∧
    (loop s h).serial = s.serial ∧ (loop s h).tft = s.tft ∧
    (loop s h).displayEnabled = s.displayEnabled := by
  unfold loop
  simp only [updateDisplay_asleep s h hoff]
  split_ifs with h1 h2 h3 h4
  · simp [hoff]
  · rw [hoff] at h3
    cases h3
  · simp [hoff]
  · simp [hoff]
  · simp [hoff]

theorem runLoops_asleep (hs : List Host) (s : UsermodGC9A01Display)
    (hoff : s.displayTurnedOff = true) :
    (runLoops s hs).displayTurnedOff = true ∧ (runLoops s hs).blWrites = s.blWrites ∧
    (runLoops s hs).serial = s.serial ∧ (runLoops s hs).tft = s.tft := by
  induction hs generalizing s with
  | nil => exact ⟨hoff, rfl, rfl, rfl⟩
  | cons h rest ih =>
    obtain ⟨h1, h2, h3, h4, _⟩ := loop_asleep s h hoff
    obtain ⟨k1, k2, k3, k4⟩ := ih (loop s h) h1
    exact ⟨k1, k2.trans h2, k3.trans h3, k4.trans h4⟩

/-- C5: for an enabled module that is not asleep, a `loop` call leaves it asleep exactly
when the timeout is positive and the 32-bit difference `now - lastUpdate` is strictly
greater than `displayTimeout`; so it stays awake whenever that difference is below the
timeout, and whenever the timeout is 0. -/
theorem loop_sleeps_iff (s : UsermodGC9A01Display) (h : Host)
    (hen : s.displayEnabled = true) (hawake : s.displayTurnedOff = false) :
    ((loop s h).displayTurnedOff = true ↔
      (0 < s.displayTimeout ∧ sub32 h.millis s.lastUpdate > s.displayTimeout)) ∧
    (sub32 h.millis s.lastUpdate < s.displayTimeout → (loop s h).displayTurnedOff = false) ∧
    (s.displayTimeout = 0 → (loop s h).displayTurnedOff = false) := by
  have hupd : (updateDisplay s h).displayTurnedOff = false := by
    rw [updateDisplay_frame]; exact hawake
  have key : (loop s h).displayTurnedOff = true ↔
      (0 < s.displayTimeout ∧ sub32 h.millis s.lastUpdate > s.displayTimeout) := by
    unfold loop
    by_cases hto : s.displayTimeout > 0 ∧ sub32 h.millis s.lastUpdate > s.displayTimeout
    · simp [hen, hawake, hto, sleepDisplay]
    · by_cases hdue : s.needsRedraw = true ∨ sub32 h.millis s.lastRedraw > 100
      · simp only [hen, hto, hdue, if_true, if_false]
        simp [hupd, hto]
      · simp only [hen, hto, hdue, if_true, if_false]
        simp [hawake, hto]
  refine ⟨key, fun hlt => ?_, fun h0 => ?_⟩
  · cases hr : (loop s h).displayTurnedOff
    · rfl
    · have := (key.mp hr).2
      omega
  · cases hr : (loop s h).displayTurnedOff
    · rfl
    · have := (key.mp hr).1
      omega

/-- Witness for C5: the module after setup, idle until the clock reads 60001. -/
theorem loop_sleeps_iff_witness :
    (loop afterSetup (hostAt 60001)).displayTurnedOff = true ↔
      (0 < afterSetup.displayTimeout ∧
        sub32 (hostAt 60001).millis afterSetup.lastUpdate > afterSetup.displayTimeout) :=
  (loop_sleeps_iff afterSetup (hostAt 60001) (by decide) (by decide)).1

/-- C6 (as stated, refuted): the module after setup has timeout 60000 ms; a `loop` call
when exactly 60000 ms have elapsed since the last activity leaves it awake, the
backlight still high. -/
theorem loop_at_exact_timeout_stays_awake :
    afterSetup.displayEnabled = true ∧ afterSetup.displayTurnedOff = false ∧
    0 < afterSetup.displayTimeout ∧
    sub32 (hostAt 60000).millis afterSetup.lastUpdate ≥ afterSetup.displayTimeout ∧
    (loop afterSetup (hostAt 60000)).displayTurnedOff = false ∧
    backlight (loop afterSetup (hostAt 60000)) = some (.digital true) := by
  decide

/-- C6 (amended): for an enabled, awake module with a positive timeout, a `loop` call
made when the 32-bit elapsed time since the last activity is strictly greater than
`displayTimeout` is exactly `sleepDisplay`: it writes LOW to the backlight and sets
asleep.  After any further sequence of `loop` calls the module is still asleep, the
backlight writes and the serial log hold that one sleep transition and nothing more,
and nothing has been drawn. -/
theorem loop_sleeps_once (s : UsermodGC9A01Display) (h : Host) (hs : List Host)
    (hen : s.displayEnabled = true) (hawake : s.displayTurnedOff = false)
    (hpos : 0 < s.displayTimeout)
    (hel : sub32 h.millis s.lastUpdate > s.displayTimeout) :
    loop s h = sleepDisplay s ∧
    (loop s h).displayTurnedOff = true ∧
    backlight (loop s h) = some (.digital false) ∧
    (runLoops (loop s h) hs).displayTurnedOff = true ∧
    (runLoops (loop s h) hs).blWrites = s.blWrites ++ [.digital false] ∧
    (runLoops (loop s h) hs).serial = s.serial ++ ["GC9A01: Display sleeping".toList] ∧
    (runLoops (loop s h) hs).tft = s.tft := by
  have hstep : loop s h = sleepDisplay s := by
    unfold loop
    simp [hen, hawake, hpos, hel]
  have hoff : (sleepDisplay s).displayTurnedOff = true := rfl
  obtain ⟨k1, k2, k3, k4⟩ := runLoops_asleep hs (sleepDisplay s) hoff
  rw [hstep]
  refine ⟨rfl, rfl, ?_, k1, k2, k3, k4⟩
  simp [backlight, sleepDisplay]

/-- Witness for C6: the module after setup, idle until the clock reads 60001, then
polled again at 60050 and 70000. -/
theorem loop_sleeps_once_witness :
    (runLoops (loop afterSetup (hostAt 60001)) [hostAt 60050, hostAt 70000]).blWrites
      = afterSetup.blWrites ++ [.digital false] :=
  (loop_sleeps_once afterSetup (hostAt 60001) [hostAt 60050, hostAt 70000]
    (by decide) (by decide) (by decide) (by decide)).2.2.2.2.1

/-- C7 (as stated, refuted), first at a redraw interval of exactly 100 ms: the module
polled at clock 0 and again at clock 100 is enabled, awake and 100 ms past its last
redraw, yet the second `loop` call changes nothing.  Second with the timeout expired:
the module after setup is enabled, awake and dirty, yet a `loop` call at clock 60001
goes to sleep, leaving the dirty flag set and the redraw timestamp at 0. -/
theorem loop_redraw_claim_fails :
    ((loop afterSetup (hostAt 0)).displayEnabled = true ∧
     (loop afterSetup (hostAt 0)).displayTurnedOff = false ∧
     sub32 (hostAt 100).millis (loop afterSetup (hostAt 0)).lastRedraw ≥ 100 ∧
     loop (loop afterSetup (hostAt 0)) (hostAt 100) = loop afterSetup (hostAt 0) ∧
     (loop (loop afterSetup (hostAt 0)) (hostAt 100)).lastRedraw ≠ (hostAt 100).millis) ∧
    (afterSetup.displayEnabled = true ∧ afterSetup.displayTurnedOff = false ∧
     afterSetup.needsRedraw = true ∧
     (loop afterSetup (hostAt 60001)).needsRedraw = true ∧
     (loop afterSetup (hostAt 60001)).lastRedraw ≠ (hostAt 60001).millis ∧
     (loop afterSetup (hostAt 60001)).tft = afterSetup.tft) := by
  decide

/-- C7 (amended): when the module is enabled and awake, the timeout has not expired
(it is 0, or the 32-bit elapsed time since the last activity is at most
`displayTimeout`), and the dirty flag is set or the 32-bit time since the last redraw
is strictly greater than 100, a `loop` call is a redraw pass: `updateDisplay` runs, so
the cached snapshot equals the host state, and the dirty flag is cleared and the redraw
timestamp set to now.  In every other case the `loop` call leaves the cached snapshot
and the screen as they were. -/
theorem loop_redraw_pass (s : UsermodGC9A01Display) (h : Host) :
    ((s.displayEnabled = true ∧ s.displayTurnedOff = false ∧
        ¬ (0 < s.displayTimeout ∧ sub32 h.millis s.lastUpdate > s.displayTimeout) ∧
        (s.needsRedraw = true ∨ sub32 h.millis s.lastRedraw > 100)) →
      loop s h = { updateDisplay s h with lastRedraw := h.millis, needsRedraw := false } ∧
      (loop s h).currentPowerState = decide (h.bri > 0) ∧
      (loop s h).currentBrightness = h.bri ∧
      (loop s h).currentEffectName
        = (if h.currentPlaylist ≥ 0 then "Playlist".toList else h.modeName)) ∧
    (¬ (s.displayEnabled = true ∧ s.displayTurnedOff = false ∧
        ¬ (0 < s.displayTimeout ∧ sub32 h.millis s.lastUpdate > s.displayTimeout) ∧
        (s.needsRedraw = true ∨ sub32 h.millis s.lastRedraw > 100)) →
      (loop s h).tft = s.tft ∧
      (loop s h).currentPowerState = s.currentPowerState ∧
      (loop s h).currentBrightness = s.currentBrightness ∧
      (loop s h).currentEffectName = s.currentEffectName) := by
  constructor
  · rintro ⟨hen, hawake, hto, hdue⟩
    have hstep : loop s h
        = { updateDisplay s h with lastRedraw := h.millis, needsRedraw := false } := by
      unfold loop
      simp only [hen, hto, hdue, if_true, if_false]
      simp
    obtain ⟨a1, a2, a3⟩ := updateDisplay_awake s h hawake
    rw [hstep]
    exact ⟨rfl, a1, a2, a3⟩
  · intro hn
    unfold loop
    by_cases hen : s.displayEnabled = false
    · simp [hen]
    · by_cases hto : s.displayTimeout > 0 ∧ sub32 h.millis s.lastUpdate > s.displayTimeout
      · simp only [hen, hto, if_true, if_false]
        cases hd : s.displayTurnedOff <;> simp [sleepDisplay]
      · by_cases hdue : s.needsRedraw = true ∨ sub32 h.millis s.lastRedraw > 100
        · have hoff : s.displayTurnedOff = true := by
            cases hd : s.displayTurnedOff
            · exfalso
              apply hn
              refine ⟨?_, hd, hto, hdue⟩
              cases he : s.displayEnabled
              · exact absurd he hen
              · rfl
            · rfl
          simp only [hen, hto, hdue, if_true, if_false, updateDisplay_asleep s h hoff]
          simp
        · simp only [hen, hto, hdue, if_true, if_false]
          simp

/-- Witness for C7: the module after setup, polled at clock 50, redraws. -/
theorem loop_redraw_pass_witness :
    loop afterSetup (hostAt 50)
      = { updateDisplay afterSetup (hostAt 50) with
          lastRedraw := (hostAt 50).millis, needsRedraw := false } :=
  ((loop_redraw_pass afterSetup (hostAt 50)).1 (by decide)).1

/-! ## Hooks, label truncation and the backlight invariant: claims C8-C10 -/

theorem woken_of_hook (s : UsermodGC9A01Display) (h : Host) :
    Woken s (if s.displayTurnedOff = true then wakeDisplay s h
             else { s with lastUpdate := h.millis, needsRedraw := true }) h := by
  unfold Woken
  cases hd : s.displayTurnedOff <;> simp [wakeDisplay, backlight, hd]

/-- C8: after each of `onUpdateBegin`, `displayNextItem`, `displayPreviousItem` and
`displaySelectItem`, from any state, the module is awake and dirty and its activity
timestamp is the current clock value; and when it was asleep before the call, the last
backlight write is HIGH. -/
theorem hooks_wake (s : UsermodGC9A01Display) (h : Host) (init : Bool) :
    Woken s (onUpdateBegin s h init) h ∧ Woken s (displayNextItem s h) h ∧
    Woken s (displayPreviousItem s h) h ∧ Woken s (displaySelectItem s h) h :=
  ⟨woken_of_hook s h, woken_of_hook s h, woken_of_hook s h, woken_of_hook s h⟩

theorem displayEffect_eq (name : Text) :
    displayEffect name
      = (if name.length > 15 then name.take 12 ++ "...".toList else name) := by
  unfold displayEffect substring
  by_cases hl : name.length > 15
  · have h12 : min 12 name.length = 12 := by omega
    simp [hl, h12]
  · simp [hl]

/-- C9: `drawMainScreen` draws exactly one text at the effect-name position; it is the
first 12 characters of the cached effect label followed by "..." when the label has
more than 15 characters and the label itself otherwise, and it is never longer than 15
characters. -/
theorem drawMainScreen_effect_label (s : UsermodGC9A01Display) (h : Host) :
    effectLabelsDrawn (drawMainScreen s h).tft
      = effectLabelsDrawn s.tft ++
        [if s.currentEffectName.length > 15
         then s.currentEffectName.take 12 ++ ['.', '.', '.']
         else s.currentEffectName] ∧
    (if s.currentEffectName.length > 15
     then s.currentEffectName.take 12 ++ ['.', '.', '.']
     else s.currentEffectName).length ≤ 15 := by
  constructor
  · have hd := displayEffect_eq s.currentEffectName
    cases hw : h.wifiConnected <;> cases ht : h.tokiValid <;>
      cases hp : s.currentPowerState <;>
      simp [drawMainScreen, drawStatusBar, hw, ht, hp, effectLabelsDrawn,
        List.filterMap_append, hd]
  · split
    · simp
    · omega

/-- C10 (evaluated at the failing input): after setup, a `loop` call at clock 60001 puts
the module to sleep; a complete configuration with brightness 128 read then leaves it
asleep with PWM duty 128, which is not off, as the last value written to the
backlight. -/
theorem asleep_with_backlight_on :
    (loop afterSetup (hostAt 60001)).displayTurnedOff = true ∧
    (readFromConfig (loop afterSetup (hostAt 60001))
        [("GC9A01", .object (section3 true 60 128))]).1 = true ∧
    (readFromConfig (loop afterSetup (hostAt 60001))
        [("GC9A01", .object (section3 true 60 128))]).2.displayTurnedOff = true ∧
    backlight (readFromConfig (loop afterSetup (hostAt 60001))
        [("GC9A01", .object (section3 true 60 128))]).2 = some (.analog 128) ∧
    (PinWrite.analog 128).isOff = false := by
  decide

end GC9A01
